import Mathlib

/-!
Shallow embedding of `src/pymodaq_plugins/hardware/smaract/smaract.py`
(the `SmarAct` class wrapping the vendor `MCSControl.dll`) together with
theorems settling the specification claims about it.

The vendor DLL itself is not part of the repository; every driver
operation is therefore parameterised by a `Dll σ` record of transport
call implementations over an abstract transport state `σ`, mirroring the
ctypes call surface used by the source.  Two concrete transports are
provided below: a fault-injecting one (for the error-handling claims)
and an idealized one modelled from the spec (for the motion-consistency
claim).
-/

set_option maxRecDepth 4096

/-- Two's-complement wrap to a signed 32-bit value.  `ctypes.c_long(x)`
silently masks `x` to the width of C `long`, which is 32 bits on the
Windows target the source documents. -/
def toInt32 (n : Int) : Int := ((n + 2 ^ 31) % 2 ^ 32) - 2 ^ 31

/-- The literal transport tag of the locator pattern `usb:id:[0-9]{10}`
used by `SmarAct.get_controller_locator`. -/
def locTag : List Char := ['u', 's', 'b', ':', 'i', 'd', ':']

/-- One attempt of the regex `usb:id:[0-9]{10}` at the head of `l`:
if the first 7 characters are the tag and the following 10 are decimal
digits, return the 17-character match together with the remainder of the
input after the match; otherwise `none`.  (`{10}` consumes exactly ten
digits, so an eleventh digit is simply left in the remainder.) -/
def matchLocatorAt (l : List Char) : Option (List Char × List Char) :=
  if l.take 7 = locTag ∧ ((l.drop 7).take 10).length = 10
      ∧ ((l.drop 7).take 10).all Char.isDigit then
    some (l.take 17, (l.drop 7).drop 10)
  else
    none

/-- Fuelled scan implementing `re.findall("usb:id:[0-9]{10}", s)`:
left-to-right, non-overlapping; on a match the scan resumes after the
matched text, otherwise it advances one character.  `fuel ≥ cs.length`
makes the fuel irrelevant. -/
def findallAux : Nat → List Char → List (List Char)
  | 0, _ => []
  | _ + 1, [] => []
  | fuel + 1, c :: cs =>
    match matchLocatorAt (c :: cs) with
    | some (m, r) => m :: findallAux fuel r
    | none => findallAux fuel cs

/-- Embedding of `re.findall("usb:id:[0-9]{10}", s)` from the source, as a pure
function on the decoded enumeration buffer. -/
def findallLocator (s : String) : List String :=
  (findallAux s.data.length s.data).map fun l => String.mk l

/-- A raised Python `Exception(msg)`: the only failure the source ever
surfaces.  It carries a message string and nothing else. -/
structure PyException where
  msg : String
deriving DecidableEq, Repr

/-- The `SmarAct` object's persistent attributes, exactly the fields
assigned in `SmarAct.__init__`. -/
structure SmarAct where
  controller_locator : String
  system_index : Nat
deriving DecidableEq, Repr

/-- The ctypes call surface of `MCSControl.dll` used by the source,
over an abstract transport state `σ`.  Each call returns its raw numeric
status, its output values (as read back from the ctypes out-parameters),
and the next transport state. -/
structure Dll (σ : Type) where
  SA_FindSystems : σ → Int × String × σ
  SA_OpenSystem : String → String → σ → Int × Nat × σ
  SA_CloseSystem : Nat → σ → Int × σ
  SA_GetNumberOfChannels : Nat → σ → Int × Nat × σ
  SA_GetPosition_S : Nat → Nat → σ → Int × Int × σ
  SA_FindReferenceMark_S : Nat → Nat → Nat → Nat → Nat → σ → Int × σ
  SA_GotoPositionRelative_S : Nat → Nat → Int → Nat → σ → Int × σ
  SA_GotoPositionAbsolute_S : Nat → Nat → Int → Nat → σ → Int × σ
  SA_Stop_S : Nat → Nat → σ → Int × σ

variable {σ : Type}

/-- Embedding of `SmarAct.get_controller_locator`: enumerate systems, then return the
first `usb:id:[0-9]{10}` match of the buffer; raise on non-zero status
or on no match. -/
def get_controller_locator (dll : Dll σ) (s : σ) :
    Except PyException String × σ :=
  let (status, outList, s) := dll.SA_FindSystems s
  if status ≠ 0 then
    (.error ⟨"SmarAct SA_FindSystems error"⟩, s)
  else
    match findallLocator outList with
    | [] => (.error ⟨"No controller found"⟩, s)
    | loc :: _ => (.ok loc, s)

/-- Embedding of `SmarAct.init_communication`: open a session in `'sync'` mode for
the given locator; raise on non-zero status, else return the assigned
system index. -/
def init_communication (dll : Dll σ) (controller_locator : String) (s : σ) :
    Except PyException Nat × σ :=
  let (status, systemIndex, s) := dll.SA_OpenSystem controller_locator "sync" s
  if status ≠ 0 then
    (.error ⟨"SmarAct SA_OpenSystem failed"⟩, s)
  else
    (.ok systemIndex, s)

/-- Embedding of `SmarAct.__init__`: locate the controller, open the session, store
both attributes.  A raise in either step propagates and no object is
constructed. -/
def SmarAct.init (dll : Dll σ) (s : σ) : Except PyException SmarAct × σ :=
  match get_controller_locator dll s with
  | (.error e, s) => (.error e, s)
  | (.ok controller_locator, s) =>
    match init_communication dll controller_locator s with
    | (.error e, s) => (.error e, s)
    | (.ok system_index, s) => (.ok ⟨controller_locator, system_index⟩, s)

/-- Embedding of `SmarAct.close_communication`: close the session; raise on non-zero
status.  The methods below return the post-call object alongside the
result; no method of the source ever reassigns an attribute of `self`. -/
def close_communication (dll : Dll σ) (a : SmarAct) (s : σ) :
    Except PyException Unit × SmarAct × σ :=
  let (status, s) := dll.SA_CloseSystem a.system_index s
  if status ≠ 0 then
    (.error ⟨"SmarAct SA_CloseSystem failed"⟩, a, s)
  else
    (.ok (), a, s)

/-- Embedding of `SmarAct.get_number_of_channels`: query the channel count; on
non-zero status, close the session then raise.  A raise inside
`close_communication` propagates instead of the method's own raise. -/
def get_number_of_channels (dll : Dll σ) (a : SmarAct) (s : σ) :
    Except PyException Nat × SmarAct × σ :=
  let (status, numberOfChannels, s) := dll.SA_GetNumberOfChannels a.system_index s
  if status ≠ 0 then
    match close_communication dll a s with
    | (.error e, a, s) => (.error e, a, s)
    | (.ok _, a, s) => (.error ⟨"SmarAct SA_GetNumberOfChannels failed"⟩, a, s)
  else
    (.ok numberOfChannels, a, s)

/-- Embedding of `SmarAct.get_position`: read the channel's position (a signed
32-bit `c_long` out-parameter); on non-zero status, close then raise. -/
def get_position (dll : Dll σ) (a : SmarAct) (channel_index : Nat) (s : σ) :
    Except PyException Int × SmarAct × σ :=
  let (status, position, s) := dll.SA_GetPosition_S a.system_index channel_index s
  if status ≠ 0 then
    match close_communication dll a s with
    | (.error e, a, s) => (.error e, a, s)
    | (.ok _, a, s) => (.error ⟨"SmarAct SA_GetPosition failed"⟩, a, s)
  else
    (.ok (toInt32 position), a, s)

/-- Embedding of `SmarAct.find_reference`: issue the find-reference-mark command with
the fixed constants `direction = 0`, `hold_time = 60000`,
`auto_zero = 1`; on non-zero status, close then raise. -/
def find_reference (dll : Dll σ) (a : SmarAct) (channel_index : Nat) (s : σ) :
    Except PyException Unit × SmarAct × σ :=
  let direction : Nat := 0
  let hold_time : Nat := 60000
  let auto_zero : Nat := 1
  let (status, s) :=
    dll.SA_FindReferenceMark_S a.system_index channel_index direction hold_time auto_zero s
  if status ≠ 0 then
    match close_communication dll a s with
    | (.error e, a, s) => (.error e, a, s)
    | (.ok _, a, s) => (.error ⟨"SmarAct SA_FindReferenceMark failed"⟩, a, s)
  else
    (.ok (), a, s)

/-- Embedding of `SmarAct.relative_move`: command a relative move (`c_long` delta,
fixed hold time 60000); on non-zero status, close then raise. -/
def relative_move (dll : Dll σ) (a : SmarAct) (channel_index : Nat)
    (relative_position : Int) (s : σ) : Except PyException Unit × SmarAct × σ :=
  let hold_time : Nat := 60000
  let (status, s) :=
    dll.SA_GotoPositionRelative_S a.system_index channel_index
      (toInt32 relative_position) hold_time s
  if status ≠ 0 then
    match close_communication dll a s with
    | (.error e, a, s) => (.error e, a, s)
    | (.ok _, a, s) => (.error ⟨"SmarAct SA_GotoPositionRelative failed"⟩, a, s)
  else
    (.ok (), a, s)

/-- Embedding of `SmarAct.absolute_move`: command an absolute move (`c_long` target,
fixed hold time 60000); on non-zero status, close then raise. -/
def absolute_move (dll : Dll σ) (a : SmarAct) (channel_index : Nat)
    (absolute_position : Int) (s : σ) : Except PyException Unit × SmarAct × σ :=
  let hold_time : Nat := 60000
  let (status, s) :=
    dll.SA_GotoPositionAbsolute_S a.system_index channel_index
      (toInt32 absolute_position) hold_time s
  if status ≠ 0 then
    match close_communication dll a s with
    | (.error e, a, s) => (.error e, a, s)
    | (.ok _, a, s) => (.error ⟨"SmarAct SA_GotoPositionAbsolute failed"⟩, a, s)
  else
    (.ok (), a, s)

/-- Embedding of `SmarAct.stop`: halt motion on the channel; on non-zero status,
close then raise. -/
def stop (dll : Dll σ) (a : SmarAct) (channel_index : Nat) (s : σ) :
    Except PyException Unit × SmarAct × σ :=
  let (status, s) := dll.SA_Stop_S a.system_index channel_index s
  if status ≠ 0 then
    match close_communication dll a s with
    | (.error e, a, s) => (.error e, a, s)
    | (.ok _, a, s) => (.error ⟨"SmarAct SA_Stop failed"⟩, a, s)
  else
    (.ok (), a, s)

/-- Prescribed raw status for each transport call of the fault-injecting
transport, plus the content the enumeration call writes into the output
buffer. -/
structure FaultCfg where
  stFind : Int := 0
  stOpen : Int := 0
  stClose : Int := 0
  stChannels : Int := 0
  stPos : Int := 0
  stRef : Int := 0
  stRel : Int := 0
  stAbs : Int := 0
  stStop : Int := 0
  buffer : String := "usb:id:3118167233"
  numChannels : Nat := 3
  posValue : Int := 0
  handle : Nat := 1
deriving Repr

/-- Observable transport-side state of the fault-injecting transport:
the locators passed to `SA_OpenSystem`, the handles passed to
`SA_CloseSystem`, the full argument tuples passed to
`SA_FindReferenceMark_S`, and whether the transport currently holds an
open session. -/
structure FaultState where
  openCalls : List String := []
  closeCalls : List Nat := []
  refCalls : List (Nat × Nat × Nat × Nat × Nat) := []
  sessionOpen : Bool := false
deriving DecidableEq, Repr

/-- Modelled from the spec: the vendor transport as a programmable
stub (the `MCSControl.dll` binary is not in the repository).  Every call
returns the status prescribed by `cfg` and records its observable
effects in a `FaultState`; a successful open (resp. close) marks the
transport session open (resp. closed). -/
def faultDll (cfg : FaultCfg) : Dll FaultState where
  SA_FindSystems s := (cfg.stFind, cfg.buffer, s)
  SA_OpenSystem locator _mode s :=
    (cfg.stOpen, cfg.handle,
      { s with
        openCalls := s.openCalls ++ [locator]
        sessionOpen := if cfg.stOpen = 0 then true else s.sessionOpen })
  SA_CloseSystem handle s :=
    (cfg.stClose,
      { s with
        closeCalls := s.closeCalls ++ [handle]
        sessionOpen := if cfg.stClose = 0 then false else s.sessionOpen })
  SA_GetNumberOfChannels _handle s := (cfg.stChannels, cfg.numChannels, s)
  SA_GetPosition_S _handle _ch s := (cfg.stPos, cfg.posValue, s)
  SA_FindReferenceMark_S handle ch dir hold az s :=
    (cfg.stRef, { s with refCalls := s.refCalls ++ [(handle, ch, dir, hold, az)] })
  SA_GotoPositionRelative_S _handle _ch _d _hold s := (cfg.stRel, s)
  SA_GotoPositionAbsolute_S _handle _ch _p _hold s := (cfg.stAbs, s)
  SA_Stop_S _handle _ch s := (cfg.stStop, s)

/-- Modelled from the spec: state of an idealized transport that
perfectly executes motion — it reports `numChannels` channels, keeps an
exact position per channel, and every call on a valid channel succeeds
with status 0 (any other channel fails with status 1). -/
structure MCS where
  numChannels : Nat
  positions : Nat → Int
  sessionOpen : Bool

/-- Modelled from the spec: the idealized transport's call table.
Relative moves add the requested delta to the exact stored position;
absolute moves set it; positions are read back exactly. -/
def idealDll : Dll MCS where
  SA_FindSystems s := (0, "usb:id:3118167233", s)
  SA_OpenSystem _locator _mode s := (0, 1, { s with sessionOpen := true })
  SA_CloseSystem _handle s := (0, { s with sessionOpen := false })
  SA_GetNumberOfChannels _handle s := (0, s.numChannels, s)
  SA_GetPosition_S _handle ch s :=
    if ch < s.numChannels then (0, s.positions ch, s) else (1, 0, s)
  SA_FindReferenceMark_S _handle ch _dir _hold _az s :=
    if ch < s.numChannels then
      (0, { s with positions := fun c => if c = ch then 0 else s.positions c })
    else (1, s)
  SA_GotoPositionRelative_S _handle ch d _hold s :=
    if ch < s.numChannels then
      (0, { s with positions := fun c => if c = ch then s.positions c + d else s.positions c })
    else (1, s)
  SA_GotoPositionAbsolute_S _handle ch p _hold s :=
    if ch < s.numChannels then
      (0, { s with positions := fun c => if c = ch then p else s.positions c })
    else (1, s)
  SA_Stop_S _handle ch s := if ch < s.numChannels then (0, s) else (1, s)

/-- A concrete `SmarAct` object as produced by a successful `__init__`
against the default fault transport configuration. -/
def a0 : SmarAct := ⟨"usb:id:3118167233", 1⟩

/-- The fresh fault-transport state: no calls recorded, no session. -/
def st0 : FaultState := {}

/-- The idealized transport's state in the spec's concrete motion
scenario: three channels, every channel at position 1000 nm. -/
def mcs0 : MCS := ⟨3, fun _ => 1000, true⟩

theorem matchLocatorAt_nil : matchLocatorAt [] = none := by decide

/-- The fuelled scan returns no match exactly when no position of the
input starts a `usb:id:[0-9]{10}` match. -/
theorem findallAux_eq_nil_iff (fuel : Nat) (cs : List Char) (hfuel : cs.length ≤ fuel) :
    findallAux fuel cs = [] ↔ ∀ i < cs.length, matchLocatorAt (cs.drop i) = none := by
  induction fuel generalizing cs with
  | zero =>
    have hnil : cs = [] := List.eq_nil_of_length_eq_zero (Nat.le_zero.mp hfuel)
    subst hnil
    simp [findallAux]
  | succ fuel ih =>
    cases cs with
    | nil => simp [findallAux]
    | cons c cs =>
      cases h : matchLocatorAt (c :: cs) with
      | some p =>
        obtain ⟨m, r⟩ := p
        constructor
        · intro hx
          simp [findallAux, h] at hx
        · intro hall
          have h0 := hall 0 (by simp)
          simp [h] at h0
      | none =>
        have hlen : cs.length ≤ fuel := by
          simp only [List.length_cons] at hfuel; omega
        have hstep : findallAux (fuel + 1) (c :: cs) = findallAux fuel cs := by
          simp [findallAux, h]
        rw [hstep, ih cs hlen]
        constructor
        · intro hall i hi
          match i with
          | 0 => simpa using h
          | (j : Nat) + 1 =>
            have hj : j < cs.length := by simp only [List.length_cons] at hi; omega
            simpa using hall j hj
        · intro hall i hi
          have := hall (i + 1) (by simp only [List.length_cons]; omega)
          simpa using this

/-- If position `i` starts a match and no earlier position does, the
fuelled scan's first result is exactly that 17-character match. -/
theorem findallAux_head (fuel : Nat) (cs : List Char) (i : Nat) (m r : List Char)
    (hfuel : cs.length ≤ fuel)
    (hbefore : ∀ j < i, matchLocatorAt (cs.drop j) = none)
    (hmatch : matchLocatorAt (cs.drop i) = some (m, r)) :
    ∃ t, findallAux fuel cs = m :: t := by
  induction fuel generalizing cs i with
  | zero =>
    have hnil : cs = [] := List.eq_nil_of_length_eq_zero (Nat.le_zero.mp hfuel)
    subst hnil
    simp [matchLocatorAt_nil] at hmatch
  | succ fuel ih =>
    cases cs with
    | nil => simp [matchLocatorAt_nil] at hmatch
    | cons c cs =>
      cases i with
      | zero =>
        simp only [List.drop_zero] at hmatch
        exact ⟨findallAux fuel r, by simp [findallAux, hmatch]⟩
      | succ i =>
        have h0 : matchLocatorAt (c :: cs) = none := by
          simpa using hbefore 0 (Nat.succ_pos i)
        have hlen : cs.length ≤ fuel := by
          simp only [List.length_cons] at hfuel; omega
        obtain ⟨t, ht⟩ :=
          ih cs i hlen (fun j hj => by simpa using hbefore (j + 1) (by omega))
            (by simpa using hmatch)
        exact ⟨t, by simp [findallAux, h0, ht]⟩

/-- The modelled `re.findall` finds nothing exactly when no position of the buffer
starts a `usb:id:[0-9]{10}` match. -/
theorem findallLocator_eq_nil_iff (b : String) :
    findallLocator b = [] ↔ ∀ i < b.data.length, matchLocatorAt (b.data.drop i) = none := by
  unfold findallLocator
  rw [List.map_eq_nil_iff]
  exact findallAux_eq_nil_iff _ _ le_rfl

/-- The head of `re.findall` is the leftmost match of the buffer. -/
theorem findallLocator_head (b : String) (i : Nat) (m r : List Char)
    (hbefore : ∀ j < i, matchLocatorAt (b.data.drop j) = none)
    (hmatch : matchLocatorAt (b.data.drop i) = some (m, r)) :
    ∃ t, findallLocator b = String.mk m :: t := by
  obtain ⟨t, ht⟩ := findallAux_head b.data.length b.data i m r le_rfl hbefore hmatch
  exact ⟨t.map fun l => String.mk l, by unfold findallLocator; rw [ht]; rfl⟩

/-- Values already in signed 32-bit range are unchanged by the
`c_long` wrap. -/
theorem toInt32_eq_self (n : Int) (h1 : -(2 ^ 31) ≤ n) (h2 : n < 2 ^ 31) :
    toInt32 n = n := by
  unfold toInt32
  omega

theorem close_communication_fault (cfg : FaultCfg) (a : SmarAct) (st : FaultState) :
    close_communication (faultDll cfg) a st =
      ((if cfg.stClose = 0 then .ok () else .error ⟨"SmarAct SA_CloseSystem failed"⟩), a,
        { st with
          closeCalls := st.closeCalls ++ [a.system_index]
          sessionOpen := if cfg.stClose = 0 then false else st.sessionOpen }) := by
  unfold close_communication faultDll
  split_ifs <;> simp_all

theorem get_number_of_channels_fault (cfg : FaultCfg) (a : SmarAct) (st : FaultState) :
    get_number_of_channels (faultDll cfg) a st =
      if cfg.stChannels = 0 then (.ok cfg.numChannels, a, st)
      else
        ((if cfg.stClose = 0 then .error ⟨"SmarAct SA_GetNumberOfChannels failed"⟩
          else .error ⟨"SmarAct SA_CloseSystem failed"⟩), a,
          { st with
            closeCalls := st.closeCalls ++ [a.system_index]
            sessionOpen := if cfg.stClose = 0 then false else st.sessionOpen }) := by
  simp only [get_number_of_channels, close_communication, faultDll]
  split_ifs <;> simp_all

theorem get_position_fault (cfg : FaultCfg) (a : SmarAct) (ch : Nat) (st : FaultState) :
    get_position (faultDll cfg) a ch st =
      if cfg.stPos = 0 then (.ok (toInt32 cfg.posValue), a, st)
      else
        ((if cfg.stClose = 0 then .error ⟨"SmarAct SA_GetPosition failed"⟩
          else .error ⟨"SmarAct SA_CloseSystem failed"⟩), a,
          { st with
            closeCalls := st.closeCalls ++ [a.system_index]
            sessionOpen := if cfg.stClose = 0 then false else st.sessionOpen }) := by
  simp only [get_position, close_communication, faultDll]
  split_ifs <;> simp_all

theorem find_reference_fault (cfg : FaultCfg) (a : SmarAct) (ch : Nat) (st : FaultState) :
    find_reference (faultDll cfg) a ch st =
      if cfg.stRef = 0 then
        (.ok (), a,
          { st with refCalls := st.refCalls ++ [(a.system_index, ch, 0, 60000, 1)] })
      else
        ((if cfg.stClose = 0 then .error ⟨"SmarAct SA_FindReferenceMark failed"⟩
          else .error ⟨"SmarAct SA_CloseSystem failed"⟩), a,
          { st with
            refCalls := st.refCalls ++ [(a.system_index, ch, 0, 60000, 1)]
            closeCalls := st.closeCalls ++ [a.system_index]
            sessionOpen := if cfg.stClose = 0 then false else st.sessionOpen }) := by
  simp only [find_reference, close_communication, faultDll]
  split_ifs <;> simp_all

theorem relative_move_fault (cfg : FaultCfg) (a : SmarAct) (ch : Nat) (d : Int)
    (st : FaultState) :
    relative_move (faultDll cfg) a ch d st =
      if cfg.stRel = 0 then (.ok (), a, st)
      else
        ((if cfg.stClose = 0 then .error ⟨"SmarAct SA_GotoPositionRelative failed"⟩
          else .error ⟨"SmarAct SA_CloseSystem failed"⟩), a,
          { st with
            closeCalls := st.closeCalls ++ [a.system_index]
            sessionOpen := if cfg.stClose = 0 then false else st.sessionOpen }) := by
  simp only [relative_move, close_communication, faultDll]
  split_ifs <;> simp_all

theorem absolute_move_fault (cfg : FaultCfg) (a : SmarAct) (ch : Nat) (p : Int)
    (st : FaultState) :
    absolute_move (faultDll cfg) a ch p st =
      if cfg.stAbs = 0 then (.ok (), a, st)
      else
        ((if cfg.stClose = 0 then .error ⟨"SmarAct SA_GotoPositionAbsolute failed"⟩
          else .error ⟨"SmarAct SA_CloseSystem failed"⟩), a,
          { st with
            closeCalls := st.closeCalls ++ [a.system_index]
            sessionOpen := if cfg.stClose = 0 then false else st.sessionOpen }) := by
  simp only [absolute_move, close_communication, faultDll]
  split_ifs <;> simp_all

theorem stop_fault (cfg : FaultCfg) (a : SmarAct) (ch : Nat) (st : FaultState) :
    stop (faultDll cfg) a ch st =
      if cfg.stStop = 0 then (.ok (), a, st)
      else
        ((if cfg.stClose = 0 then .error ⟨"SmarAct SA_Stop failed"⟩
          else .error ⟨"SmarAct SA_CloseSystem failed"⟩), a,
          { st with
            closeCalls := st.closeCalls ++ [a.system_index]
            sessionOpen := if cfg.stClose = 0 then false else st.sessionOpen }) := by
  simp only [stop, close_communication, faultDll]
  split_ifs <;> simp_all

/-- C1 (counterexample): the failure `stop` surfaces for raw status 17
is byte-for-byte the same exception as for raw status 18 — the plain
`Exception('SmarAct SA_Stop failed')` — so the surfaced error cannot
carry the raw numeric status code; in particular it is not
`MotionError{code: 17, op: "stop"}`. -/
theorem C1_counterexample :
    (stop (faultDll { stStop := 17 }) a0 2 st0).1
      = (stop (faultDll { stStop := 18 }) a0 2 st0).1
  ∧ (stop (faultDll { stStop := 17 }) a0 2 st0).1
      = .error ⟨"SmarAct SA_Stop failed"⟩ :=
  ⟨rfl, rfl⟩

/-- C1 (amended): every operation surfaces a non-zero transport status
as a raised exception whose message names the failing transport call
(none is silently swallowed), but the exception carries only that
message — not the raw numeric status code.  For session-bearing
operations the operation's own exception is the one surfaced only when
the implicit close succeeds. -/
theorem C1_error_naming (cfg : FaultCfg) (a : SmarAct) (loc : String) (ch : Nat)
    (d p : Int) (st : FaultState) :
    (cfg.stFind ≠ 0 →
      (get_controller_locator (faultDll cfg) st).1
        = .error ⟨"SmarAct SA_FindSystems error"⟩)
  ∧ (cfg.stOpen ≠ 0 →
      (init_communication (faultDll cfg) loc st).1
        = .error ⟨"SmarAct SA_OpenSystem failed"⟩)
  ∧ (cfg.stChannels ≠ 0 → cfg.stClose = 0 →
      (get_number_of_channels (faultDll cfg) a st).1
        = .error ⟨"SmarAct SA_GetNumberOfChannels failed"⟩)
  ∧ (cfg.stPos ≠ 0 → cfg.stClose = 0 →
      (get_position (faultDll cfg) a ch st).1
        = .error ⟨"SmarAct SA_GetPosition failed"⟩)
  ∧ (cfg.stRef ≠ 0 → cfg.stClose = 0 →
      (find_reference (faultDll cfg) a ch st).1
        = .error ⟨"SmarAct SA_FindReferenceMark failed"⟩)
  ∧ (cfg.stRel ≠ 0 → cfg.stClose = 0 →
      (relative_move (faultDll cfg) a ch d st).1
        = .error ⟨"SmarAct SA_GotoPositionRelative failed"⟩)
  ∧ (cfg.stAbs ≠ 0 → cfg.stClose = 0 →
      (absolute_move (faultDll cfg) a ch p st).1
        = .error ⟨"SmarAct SA_GotoPositionAbsolute failed"⟩)
  ∧ (cfg.stStop ≠ 0 → cfg.stClose = 0 →
      (stop (faultDll cfg) a ch st).1
        = .error ⟨"SmarAct SA_Stop failed"⟩)
  ∧ (cfg.stClose ≠ 0 →
      (close_communication (faultDll cfg) a st).1
        = .error ⟨"SmarAct SA_CloseSystem failed"⟩) := by
  refine ⟨?_, ?_, ?_, ?_, ?_, ?_, ?_, ?_, ?_⟩
  · intro h; simp [get_controller_locator, faultDll, h]
  · intro h; simp [init_communication, faultDll, h]
  · intro h hc; rw [get_number_of_channels_fault]; simp [h, hc]
  · intro h hc; rw [get_position_fault]; simp [h, hc]
  · intro h hc; rw [find_reference_fault]; simp [h, hc]
  · intro h hc; rw [relative_move_fault]; simp [h, hc]
  · intro h hc; rw [absolute_move_fault]; simp [h, hc]
  · intro h hc; rw [stop_fault]; simp [h, hc]
  · intro h; rw [close_communication_fault]; simp [h]

/-- C1 witness: `stop` failing with raw status 17 (close succeeding)
surfaces the exception naming the stop call. -/
theorem C1_error_naming_witness :
    (stop (faultDll { stStop := 17 }) a0 2 st0).1
      = .error ⟨"SmarAct SA_Stop failed"⟩ :=
  (C1_error_naming { stStop := 17 } a0 "usb:id:3118167233" 2 0 0
    st0).2.2.2.2.2.2.2.1 (by decide) (by decide)

/-- C2: every operation that requires an already-open session closes
the session as a side effect of a non-zero status before surfacing the
failure: the returned transport state records exactly one new
`SA_CloseSystem` call on the session handle, and the result is an
error. -/
theorem C2_close_on_failure (cfg : FaultCfg) (a : SmarAct) (ch : Nat)
    (d p : Int) (st : FaultState) :
    (cfg.stChannels ≠ 0 →
      (∃ e, (get_number_of_channels (faultDll cfg) a st).1 = .error e)
        ∧ (get_number_of_channels (faultDll cfg) a st).2.2.closeCalls
            = st.closeCalls ++ [a.system_index])
  ∧ (cfg.stPos ≠ 0 →
      (∃ e, (get_position (faultDll cfg) a ch st).1 = .error e)
        ∧ (get_position (faultDll cfg) a ch st).2.2.closeCalls
            = st.closeCalls ++ [a.system_index])
  ∧ (cfg.stRef ≠ 0 →
      (∃ e, (find_reference (faultDll cfg) a ch st).1 = .error e)
        ∧ (find_reference (faultDll cfg) a ch st).2.2.closeCalls
            = st.closeCalls ++ [a.system_index])
  ∧ (cfg.stRel ≠ 0 →
      (∃ e, (relative_move (faultDll cfg) a ch d st).1 = .error e)
        ∧ (relative_move (faultDll cfg) a ch d st).2.2.closeCalls
            = st.closeCalls ++ [a.system_index])
  ∧ (cfg.stAbs ≠ 0 →
      (∃ e, (absolute_move (faultDll cfg) a ch p st).1 = .error e)
        ∧ (absolute_move (faultDll cfg) a ch p st).2.2.closeCalls
            = st.closeCalls ++ [a.system_index])
  ∧ (cfg.stStop ≠ 0 →
      (∃ e, (stop (faultDll cfg) a ch st).1 = .error e)
        ∧ (stop (faultDll cfg) a ch st).2.2.closeCalls
            = st.closeCalls ++ [a.system_index]) := by
  refine ⟨?_, ?_, ?_, ?_, ?_, ?_⟩
  · intro h; rw [get_number_of_channels_fault]
    refine ⟨?_, by simp [h]⟩
    by_cases hc : cfg.stClose = 0
    · exact ⟨⟨"SmarAct SA_GetNumberOfChannels failed"⟩, by simp [h, hc]⟩
    · exact ⟨⟨"SmarAct SA_CloseSystem failed"⟩, by simp [h, hc]⟩
  · intro h; rw [get_position_fault]
    refine ⟨?_, by simp [h]⟩
    by_cases hc : cfg.stClose = 0
    · exact ⟨⟨"SmarAct SA_GetPosition failed"⟩, by simp [h, hc]⟩
    · exact ⟨⟨"SmarAct SA_CloseSystem failed"⟩, by simp [h, hc]⟩
  · intro h; rw [find_reference_fault]
    refine ⟨?_, by simp [h]⟩
    by_cases hc : cfg.stClose = 0
    · exact ⟨⟨"SmarAct SA_FindReferenceMark failed"⟩, by simp [h, hc]⟩
    · exact ⟨⟨"SmarAct SA_CloseSystem failed"⟩, by simp [h, hc]⟩
  · intro h; rw [relative_move_fault]
    refine ⟨?_, by simp [h]⟩
    by_cases hc : cfg.stClose = 0
    · exact ⟨⟨"SmarAct SA_GotoPositionRelative failed"⟩, by simp [h, hc]⟩
    · exact ⟨⟨"SmarAct SA_CloseSystem failed"⟩, by simp [h, hc]⟩
  · intro h; rw [absolute_move_fault]
    refine ⟨?_, by simp [h]⟩
    by_cases hc : cfg.stClose = 0
    · exact ⟨⟨"SmarAct SA_GotoPositionAbsolute failed"⟩, by simp [h, hc]⟩
    · exact ⟨⟨"SmarAct SA_CloseSystem failed"⟩, by simp [h, hc]⟩
  · intro h; rw [stop_fault]
    refine ⟨?_, by simp [h]⟩
    by_cases hc : cfg.stClose = 0
    · exact ⟨⟨"SmarAct SA_Stop failed"⟩, by simp [h, hc]⟩
    · exact ⟨⟨"SmarAct SA_CloseSystem failed"⟩, by simp [h, hc]⟩

/-- C2 witness: `stop` failing with status 17 surfaces an error and
records the implicit `SA_CloseSystem` call on handle 1. -/
theorem C2_close_on_failure_witness :
    (∃ e, (stop (faultDll { stStop := 17 }) a0 2 st0).1 = .error e)
      ∧ (stop (faultDll { stStop := 17 }) a0 2 st0).2.2.closeCalls
          = st0.closeCalls ++ [a0.system_index] :=
  (C2_close_on_failure { stStop := 17 } a0 2 0 0 st0).2.2.2.2.2 (by decide)

/-- C3 (counterexample): `get_position` fails with status 5 and the
implicit close fails with status 7; the caller receives only the close
failure `Exception('SmarAct SA_CloseSystem failed')` — identical to the
outcome when the original status is 99 — so the original operation's
failure is not reported at all. -/
theorem C3_counterexample :
    (get_position (faultDll { stPos := 5, stClose := 7 }) a0 0 st0).1
      = .error ⟨"SmarAct SA_CloseSystem failed"⟩
  ∧ (get_position (faultDll { stPos := 5, stClose := 7 }) a0 0 st0).1
      = (get_position (faultDll { stPos := 99, stClose := 7 }) a0 0 st0).1 :=
  ⟨rfl, rfl⟩

/-- C3 (amended): when a session-bearing operation fails and the
implicit close also fails, only the close failure is surfaced to the
caller — the close call's `raise` pre-empts the operation's own, and
the original cause is lost. -/
theorem C3_close_failure_shadows (cfg : FaultCfg) (a : SmarAct) (ch : Nat)
    (d p : Int) (st : FaultState) (hclose : cfg.stClose ≠ 0) :
    (cfg.stChannels ≠ 0 →
      (get_number_of_channels (faultDll cfg) a st).1
        = .error ⟨"SmarAct SA_CloseSystem failed"⟩)
  ∧ (cfg.stPos ≠ 0 →
      (get_position (faultDll cfg) a ch st).1
        = .error ⟨"SmarAct SA_CloseSystem failed"⟩)
  ∧ (cfg.stRef ≠ 0 →
      (find_reference (faultDll cfg) a ch st).1
        = .error ⟨"SmarAct SA_CloseSystem failed"⟩)
  ∧ (cfg.stRel ≠ 0 →
      (relative_move (faultDll cfg) a ch d st).1
        = .error ⟨"SmarAct SA_CloseSystem failed"⟩)
  ∧ (cfg.stAbs ≠ 0 →
      (absolute_move (faultDll cfg) a ch p st).1
        = .error ⟨"SmarAct SA_CloseSystem failed"⟩)
  ∧ (cfg.stStop ≠ 0 →
      (stop (faultDll cfg) a ch st).1
        = .error ⟨"SmarAct SA_CloseSystem failed"⟩) := by
  refine ⟨?_, ?_, ?_, ?_, ?_, ?_⟩
  · intro h; rw [get_number_of_channels_fault]; simp [h, hclose]
  · intro h; rw [get_position_fault]; simp [h, hclose]
  · intro h; rw [find_reference_fault]; simp [h, hclose]
  · intro h; rw [relative_move_fault]; simp [h, hclose]
  · intro h; rw [absolute_move_fault]; simp [h, hclose]
  · intro h; rw [stop_fault]; simp [h, hclose]

/-- C3 witness: position read fails with status 5, close with status 7;
the surfaced failure is the close exception. -/
theorem C3_close_failure_shadows_witness :
    (get_position (faultDll { stPos := 5, stClose := 7 }) a0 0 st0).1
      = .error ⟨"SmarAct SA_CloseSystem failed"⟩ :=
  (C3_close_failure_shadows { stPos := 5, stClose := 7 } a0 0 0 0 st0
    (by decide)).2.1 (by decide)

/-- C5: `find_reference` always issues the find-reference-mark command
with direction 0 (forward), hold time 60000 and auto-zero 1, for every
channel, transport behaviour and prior state — the operation exposes no
parameter that could change them. -/
theorem C5_reference_constants (cfg : FaultCfg) (a : SmarAct) (ch : Nat)
    (st : FaultState) :
    (find_reference (faultDll cfg) a ch st).2.2.refCalls
      = st.refCalls ++ [(a.system_index, ch, 0, 60000, 1)] := by
  rw [find_reference_fault]
  by_cases h : cfg.stRef = 0 <;> simp [h]

/-- C7 (counterexample): after `get_position` fails (status 5, close
succeeding), the `SmarAct` object is bit-for-bit the object a fresh
successful `__init__` produced, while the transport-side session went
from open to closed — the object therefore carries no boolean
open/closed state that could be queried to report closed. -/
theorem C7_counterexample :
    (SmarAct.init (faultDll {}) st0).1 = .ok a0
  ∧ (SmarAct.init (faultDll {}) st0).2.sessionOpen = true
  ∧ (get_position (faultDll { stPos := 5 }) a0 0
        (SmarAct.init (faultDll {}) st0).2).2.1 = a0
  ∧ (get_position (faultDll { stPos := 5 }) a0 0
        (SmarAct.init (faultDll {}) st0).2).2.2.sessionOpen = false :=
  ⟨rfl, rfl, rfl, rfl⟩

/-- C7 (amended): the driver object holds only the locator and the
numeric handle and is unchanged by a failing session-bearing operation;
the open/closed state lives transport-side, where any such failure
(with the implicit close succeeding) leaves the session closed. -/
theorem C7_transport_closed (cfg : FaultCfg) (a : SmarAct) (ch : Nat)
    (d p : Int) (st : FaultState) (hclose : cfg.stClose = 0) :
    (cfg.stChannels ≠ 0 →
      (get_number_of_channels (faultDll cfg) a st).2.2.sessionOpen = false
        ∧ (get_number_of_channels (faultDll cfg) a st).2.1 = a)
  ∧ (cfg.stPos ≠ 0 →
      (get_position (faultDll cfg) a ch st).2.2.sessionOpen = false
        ∧ (get_position (faultDll cfg) a ch st).2.1 = a)
  ∧ (cfg.stRef ≠ 0 →
      (find_reference (faultDll cfg) a ch st).2.2.sessionOpen = false
        ∧ (find_reference (faultDll cfg) a ch st).2.1 = a)
  ∧ (cfg.stRel ≠ 0 →
      (relative_move (faultDll cfg) a ch d st).2.2.sessionOpen = false
        ∧ (relative_move (faultDll cfg) a ch d st).2.1 = a)
  ∧ (cfg.stAbs ≠ 0 →
      (absolute_move (faultDll cfg) a ch p st).2.2.sessionOpen = false
        ∧ (absolute_move (faultDll cfg) a ch p st).2.1 = a)
  ∧ (cfg.stStop ≠ 0 →
      (stop (faultDll cfg) a ch st).2.2.sessionOpen = false
        ∧ (stop (faultDll cfg) a ch st).2.1 = a) := by
  refine ⟨?_, ?_, ?_, ?_, ?_, ?_⟩
  · intro h; rw [get_number_of_channels_fault]; simp [h, hclose]
  · intro h; rw [get_position_fault]; simp [h, hclose]
  · intro h; rw [find_reference_fault]; simp [h, hclose]
  · intro h; rw [relative_move_fault]; simp [h, hclose]
  · intro h; rw [absolute_move_fault]; simp [h, hclose]
  · intro h; rw [stop_fault]; simp [h, hclose]

/-- C7 witness: after a failing position read with successful implicit
close, the transport session reports closed and the object is
unchanged. -/
theorem C7_transport_closed_witness :
    (get_position (faultDll { stPos := 5 }) a0 0 st0).2.2.sessionOpen = false
      ∧ (get_position (faultDll { stPos := 5 }) a0 0 st0).2.1 = a0 :=
  (C7_transport_closed { stPos := 5 } a0 0 0 0 st0 (by decide)).2.1 (by decide)

/-- C8: every public operation after construction leaves the object's
two fields `controller_locator` and `system_index` unchanged on every
path — the methods never reassign any attribute of `self`; in
particular closing (also the implicit close on error) does not clear
the stored handle.  Stated for an arbitrary transport, which covers
both the success and every failure path. -/
theorem C8_object_frame (dll : Dll σ) (a : SmarAct) (ch : Nat) (d p : Int)
    (st : σ) :
    (get_number_of_channels dll a st).2.1 = a
  ∧ (get_position dll a ch st).2.1 = a
  ∧ (find_reference dll a ch st).2.1 = a
  ∧ (relative_move dll a ch d st).2.1 = a
  ∧ (absolute_move dll a ch p st).2.1 = a
  ∧ (stop dll a ch st).2.1 = a
  ∧ (close_communication dll a st).2.1 = a := by
  refine ⟨?_, ?_, ?_, ?_, ?_, ?_, ?_⟩ <;>
    · simp only [get_number_of_channels, get_position, find_reference,
        relative_move, absolute_move, stop, close_communication]
      repeat' split
      all_goals try rfl
      all_goals
        rename_i heq
        rw [ite_eq_iff] at heq
        rcases heq with ⟨_, heq⟩ | ⟨_, heq⟩ <;> simp_all

/-- C4: with a zero-status enumeration, if no position of the buffer
starts a `usb:id:` + 10-digit match then construction fails with the
no-controller exception and the transport state is untouched — in
particular no `SA_OpenSystem` call is attempted; if some position
starts a match and no earlier position does, `get_controller_locator`
returns exactly that 17-character match, byte for byte. -/
theorem C4_first_locator (cfg : FaultCfg) (st : FaultState)
    (hfind : cfg.stFind = 0) :
    ((∀ i < cfg.buffer.data.length,
        matchLocatorAt (cfg.buffer.data.drop i) = none) →
      SmarAct.init (faultDll cfg) st = (.error ⟨"No controller found"⟩, st))
  ∧ (∀ i m r, matchLocatorAt (cfg.buffer.data.drop i) = some (m, r) →
      (∀ j < i, matchLocatorAt (cfg.buffer.data.drop j) = none) →
      (get_controller_locator (faultDll cfg) st).1 = .ok (String.mk m)) := by
  constructor
  · intro hall
    have hnil : findallLocator cfg.buffer = [] :=
      (findallLocator_eq_nil_iff cfg.buffer).mpr hall
    simp [SmarAct.init, get_controller_locator, faultDll, hfind, hnil]
  · intro i m r hmatch hbefore
    obtain ⟨t, ht⟩ := findallLocator_head cfg.buffer i m r hbefore hmatch
    simp [get_controller_locator, faultDll, hfind, ht]

/-- C4 witness: a buffer with no locator leaves the transport untouched
and fails with the no-controller exception; the spec's two-locator
buffer yields the first locator byte-for-byte. -/
theorem C4_first_locator_witness :
    SmarAct.init (faultDll { buffer := "no controllers here" }) st0
        = (.error ⟨"No controller found"⟩, st0)
  ∧ (get_controller_locator
        (faultDll { buffer := "usb:id:3118167233 usb:id:9999999999" }) st0).1
        = .ok "usb:id:3118167233" := by
  constructor
  · exact (C4_first_locator { buffer := "no controllers here" } st0 rfl).1 (by decide)
  · exact (C4_first_locator { buffer := "usb:id:3118167233 usb:id:9999999999" }
      st0 rfl).2 0 "usb:id:3118167233".data " usb:id:9999999999".data
      (by decide) (fun j hj => absurd hj (Nat.not_lt_zero j))

/-- C6: on the idealized transport that perfectly executes motion, for
any channel below the queried channel count, `relative_move` of `d`
followed by `get_position` returns the prior position plus `d` (sign
respected), whenever the prior position, the delta and their sum are
representable in the transport's signed 32-bit integer type. -/
theorem C6_motion_consistency (m : MCS) (a : SmarAct) (ch : Nat) (d : Int)
    (n : Nat)
    (hcount : (get_number_of_channels idealDll a m).1 = .ok n)
    (hch : ch < n)
    (hp1 : -(2 ^ 31) ≤ m.positions ch) (hp2 : m.positions ch < 2 ^ 31)
    (hd1 : -(2 ^ 31) ≤ d) (hd2 : d < 2 ^ 31)
    (hs1 : -(2 ^ 31) ≤ m.positions ch + d) (hs2 : m.positions ch + d < 2 ^ 31) :
    (get_position idealDll a ch m).1 = .ok (m.positions ch)
  ∧ (relative_move idealDll a ch d m).1 = .ok ()
  ∧ (get_position idealDll (relative_move idealDll a ch d m).2.1 ch
        (relative_move idealDll a ch d m).2.2).1 = .ok (m.positions ch + d) := by
  have hn : n = m.numChannels := by
    simp [get_number_of_channels, idealDll] at hcount
    omega
  have hch' : ch < m.numChannels := hn ▸ hch
  have hd : toInt32 d = d := toInt32_eq_self d hd1 hd2
  refine ⟨?_, ?_, ?_⟩
  · simp [get_position, idealDll, hch', toInt32_eq_self _ hp1 hp2]
  · simp [relative_move, idealDll, hch']
  · simp [relative_move, get_position, idealDll, hch', hd,
      toInt32_eq_self _ hs1 hs2]

/-- C6 witness: channel 0 at 1000 nm; `relative_move(0, -500)` then
`get_position(0)` yields 500 nm. -/
theorem C6_motion_consistency_witness :
    (get_position idealDll a0 0 mcs0).1 = .ok 1000
  ∧ (relative_move idealDll a0 0 (-500) mcs0).1 = .ok ()
  ∧ (get_position idealDll (relative_move idealDll a0 0 (-500) mcs0).2.1 0
        (relative_move idealDll a0 0 (-500) mcs0).2.2).1 = .ok 500 := by
  have h := C6_motion_consistency mcs0 a0 0 (-500) 3 rfl (by norm_num)
    (by norm_num [mcs0]) (by norm_num [mcs0]) (by norm_num) (by norm_num)
    (by norm_num [mcs0]) (by norm_num [mcs0])
  simpa [mcs0] using h

/-- C9: an enumeration entry whose tag is followed by 11 consecutive
digits is not rejected: the unanchored `{10}` pattern accepts it, and
the driver returns the tag plus only the first 10 digits. -/
theorem C9_overlong_digit_run :
    findallLocator "usb:id:31181672334" = ["usb:id:3118167233"]
  ∧ (get_controller_locator (faultDll { buffer := "usb:id:31181672334" })
        st0).1 = .ok "usb:id:3118167233" :=
  ⟨rfl, rfl⟩

/-- C10: locator extraction is deterministic in the enumeration buffer:
two runs whose enumeration calls fill byte-for-byte identical buffers
and both return status zero produce the same result — the same locator
or the same no-controller failure — whatever the rest of the transport
configuration or prior state. -/
theorem C10_deterministic (cfg1 cfg2 : FaultCfg) (s1 s2 : FaultState)
    (hb : cfg1.buffer = cfg2.buffer)
    (h1 : cfg1.stFind = 0) (h2 : cfg2.stFind = 0) :
    (get_controller_locator (faultDll cfg1) s1).1
      = (get_controller_locator (faultDll cfg2) s2).1 := by
  simp only [get_controller_locator, faultDll, h1, h2, hb]
  cases h : findallLocator cfg2.buffer <;> simp [h]

/-- C10 witness: two runs differing in transport state and unrelated
configuration but sharing the buffer agree on the extracted locator. -/
theorem C10_deterministic_witness :
    (get_controller_locator (faultDll { posValue := 3 })
        { sessionOpen := true }).1
      = (get_controller_locator (faultDll { handle := 9 }) st0).1 :=
  C10_deterministic { posValue := 3 } { handle := 9 } { sessionOpen := true }
    st0 rfl rfl rfl
